import Mathlib

/-!
# Verification of `scripts/generate-favicon.py`

Shallow embedding of the favicon generator: the icon renderer
`create_ghost_mask`, the export driver (`create_favicon_ico`, `create_png`,
the `__main__` block), and the drawing state they produce.

Conventions of the embedding:

* A canvas (`Img`) records its dimensions, pixel mode, background color and
  the ordered list of drawing operations applied to it; `getPixel` replays
  the operations (the drawing library overwrites pixels of an RGBA image,
  including alpha, with the fill of the last covering primitive).
* The float scale `s = max(size / 64, 0.5)` and every product `c * s`
  appearing in the source are exactly representable in double precision
  (all coefficients are multiples of 1/2 and `size` is an integer of
  ordinary magnitude), so `int(c * s)` equals the exact rational floor
  `⌊c * s⌋`.  With `c = c2 / 2` this is the natural-number division
  `c2 * max(2 * size, 64) / 256`, which is how `intMulS` computes it; the
  lemma `intMulS_eq_floor` below proves the two forms agree.
* Python `//` and `int(...)` on the (always nonnegative) quantities of this
  script coincide with natural-number division and floor.
-/

namespace Favicon

/-- An RGB color triple, as the Python 3-tuples. -/
abbrev RGB := Nat × Nat × Nat

/-- An RGBA color quadruple, as the Python 4-tuples. -/
abbrev RGBA := Nat × Nat × Nat × Nat

/-- Line 8: `BG_COLOR = (10, 10, 15)`. -/
def BG_COLOR : RGB := (10, 10, 15)

/-- Line 9: `GHOST_COLOR = (40, 40, 60)`. -/
def GHOST_COLOR : RGB := (40, 40, 60)

/-- Line 10: `NEON_COLOR = (0, 255, 170)`. -/
def NEON_COLOR : RGB := (0, 255, 170)

/-- Line 11: `NEON_GLOW = (0, 255, 170, 128)` (defined but never used). -/
def NEON_GLOW : RGBA := (0, 255, 170, 128)

/-- Python tuple concatenation `c + (a,)` appending an alpha channel. -/
def withAlpha (c : RGB) (a : Nat) : RGBA := (c.1, c.2.1, c.2.2, a)

/-- A bare 3-tuple fill: the drawing library completes it with alpha 255. -/
def solidFill (c : RGB) : RGBA := withAlpha c 255

/-- One drawing primitive of `ImageDraw`: a filled polygon given by its
vertices, or a filled ellipse given by its bounding box `[x0, y0, x1, y1]`. -/
inductive DrawOp where
  | polygon (points : List (ℤ × ℤ)) (fill : RGBA)
  | ellipse (x0 y0 x1 y1 : ℤ) (fill : RGBA)
deriving DecidableEq

/-- The fill color of a drawing operation. -/
def DrawOp.fill : DrawOp → RGBA
  | .polygon _ f => f
  | .ellipse _ _ _ _ f => f

/-- The alpha component of an operation's fill. -/
def DrawOp.alpha (op : DrawOp) : Nat := op.fill.2.2.2

/-- Consecutive edges of a closed polygon (each vertex to the next, the last
back to the first). -/
def polyEdges (pts : List (ℤ × ℤ)) : List ((ℤ × ℤ) × (ℤ × ℤ)) :=
  match pts with
  | [] => []
  | p :: rest => pts.zip (rest ++ [p])

/-- Whether a horizontal ray from `(x, y)` to the left crosses the edge
`(a, b)` (half-open in `y`, strict in `x`; the standard even-odd rule). -/
def crossesEdge (x y : ℤ) (e : (ℤ × ℤ) × (ℤ × ℤ)) : Bool :=
  let a := e.1
  let b := e.2
  if a.2 ≤ y ∧ y < b.2 then
    decide ((x - a.1) * (b.2 - a.2) < (b.1 - a.1) * (y - a.2))
  else if b.2 ≤ y ∧ y < a.2 then
    decide ((b.1 - a.1) * (y - a.2) < (x - a.1) * (b.2 - a.2))
  else false

/-- Even-odd point-in-polygon test (model of the scanline polygon fill). -/
def inPolygon (pts : List (ℤ × ℤ)) (x y : ℤ) : Bool :=
  (polyEdges pts).foldl (fun par e => if crossesEdge x y e then !par else par) false

/-- Whether an operation paints the pixel `(x, y)`: polygons by the even-odd
rule, ellipses by the inscribed-ellipse inequality inside their box. -/
def DrawOp.covers : DrawOp → ℤ → ℤ → Bool
  | .polygon pts _, x, y => inPolygon pts x y
  | .ellipse x0 y0 x1 y1 _, x, y =>
    decide (x0 ≤ x ∧ x ≤ x1 ∧ y0 ≤ y ∧ y ≤ y1 ∧
      (2 * x - x0 - x1) ^ 2 * (y1 - y0) ^ 2 + (2 * y - y0 - y1) ^ 2 * (x1 - x0) ^ 2
        ≤ (x1 - x0) ^ 2 * (y1 - y0) ^ 2)

/-- An in-memory canvas: dimensions, pixel mode, background color, and the
drawing operations applied to it in order. -/
structure Img where
  width : Nat
  height : Nat
  mode : String
  background : RGBA
  ops : List DrawOp
deriving DecidableEq

/-- The color of pixel `(x, y)`: the background overwritten, in order, by the
fill of every operation that covers the pixel (RGBA draw mode replaces the
pixel value, alpha included). -/
def getPixel (img : Img) (x y : ℤ) : RGBA :=
  img.ops.foldl (fun c op => if op.covers x y then op.fill else c) img.background

/-- Line 19: `s = max(size / 64, 0.5)`, the scale factor, as an exact
rational (the float computation is exact, see the header comment). -/
def s (size : Nat) : ℚ := max ((size : ℚ) / 64) (1 / 2)

/-- `int(c * s)` for a coefficient `c` written in the source, passed here as
`c2 = 2 * c` (every coefficient is a multiple of 1/2): exactly
`c2 * max(2 * size, 64) / 256` in natural-number arithmetic.
`intMulS_eq_floor` proves this equal to `⌊(c2 / 2) * s size⌋`. -/
def intMulS (c2 : Nat) (size : Nat) : Nat := c2 * max (2 * size) 64 / 256

/-- The recurring clamping pattern `max(1, int(c * s))`, with `c2 = 2 * c`. -/
def min1 (c2 : Nat) (size : Nat) : Nat := max 1 (intMulS c2 size)

/-- Line 26: `center_x = size // 2`. -/
def center_x (size : Nat) : ℤ := (size / 2 : Nat)

/-- Line 26: `center_y = size // 2 - max(1, int(4 * s))`. -/
def center_y (size : Nat) : ℤ := (size / 2 : Nat) - (min1 8 size : Nat)

/-- Line 27: `head_width = max(2, int(24 * s))`. -/
def head_width (size : Nat) : Nat := max 2 (intMulS 48 size)

/-- Line 28: `head_height = max(2, int(22 * s))`. -/
def head_height (size : Nat) : Nat := max 2 (intMulS 44 size)

/-- Lines 31-46: `ghost_points`, the eleven vertices of the ghost body
(left side, scalloped bottom, right side), each offset from the center by a
`max(1, int(c * s))` amount. -/
def ghost_points (size : Nat) : List (ℤ × ℤ) :=
  [(center_x size - min1 40 size, center_y size + min1 20 size),
   (center_x size - min1 44 size, center_y size + min1 40 size),
   (center_x size - min1 36 size, center_y size + min1 52 size),
   (center_x size - min1 28 size, center_y size + min1 56 size),
   (center_x size - min1 16 size, center_y size + min1 48 size),
   (center_x size, center_y size + min1 56 size),
   (center_x size + min1 16 size, center_y size + min1 48 size),
   (center_x size + min1 28 size, center_y size + min1 56 size),
   (center_x size + min1 36 size, center_y size + min1 52 size),
   (center_x size + min1 44 size, center_y size + min1 40 size),
   (center_x size + min1 40 size, center_y size + min1 20 size)]

/-- Line 59: `eye_offset_x = max(1, int(8 * s))`. -/
def eye_offset_x (size : Nat) : Nat := min1 16 size

/-- Line 60: `eye_y = center_y - max(1, int(2 * s))`. -/
def eye_y (size : Nat) : ℤ := center_y size - (min1 4 size : Nat)

/-- Line 61: `eye_radius = max(1, int(6 * s))`. -/
def eye_radius (size : Nat) : Nat := min1 12 size

/-- Line 70: `glow_radius = max(2, int(9 * s))`. -/
def glow_radius (size : Nat) : Nat := max 2 (intMulS 18 size)

/-- Line 80: `pupil_radius = max(1, int(4 * s))`. -/
def pupil_radius (size : Nat) : Nat := min1 8 size

/-- Line 88: `highlight_radius = max(1, int(1.5 * s))` (computed but not
used by any drawing call). -/
def highlight_radius (size : Nat) : Nat := min1 3 size

/-- Line 49: `draw.polygon(ghost_points, fill=GHOST_COLOR + (255,))`. -/
def body_op (ghost : RGB) (size : Nat) : DrawOp :=
  .polygon (ghost_points size) (withAlpha ghost 255)

/-- Lines 52-56: the head ellipse
`[cx - head_width, cy - head_height, cx + head_width, cy + head_height // 2]`
filled `GHOST_COLOR + (255,)`. -/
def head_op (ghost : RGB) (size : Nat) : DrawOp :=
  .ellipse (center_x size - head_width size) (center_y size - head_height size)
    (center_x size + head_width size) (center_y size + (head_height size / 2 : Nat))
    (withAlpha ghost 255)

/-- Lines 63-67: the eye socket ellipse, radius `eye_radius` around
`(cx - eye_offset_x, eye_y)`, filled `BG_COLOR + (255,)`. -/
def eye_socket_op (bg : RGB) (size : Nat) : DrawOp :=
  .ellipse (center_x size - eye_offset_x size - eye_radius size)
    (eye_y size - eye_radius size)
    (center_x size - eye_offset_x size + eye_radius size)
    (eye_y size + eye_radius size)
    (withAlpha bg 255)

/-- Lines 71-77, iteration `i` of `for i in range(3)`: the glow ellipse with
box inset by `i*2` on each side and fill `NEON_COLOR + (60 - i*15,)`. -/
def glow_ring (neon : RGB) (size : Nat) (i : Nat) : DrawOp :=
  .ellipse (center_x size - eye_offset_x size - glow_radius size + i * 2)
    (eye_y size - glow_radius size + i * 2)
    (center_x size - eye_offset_x size + glow_radius size - i * 2)
    (eye_y size + glow_radius size - i * 2)
    (withAlpha neon (60 - i * 15))

/-- Lines 81-85: the pupil ellipse, radius `pupil_radius` around
`(cx - eye_offset_x, eye_y)`, filled `NEON_COLOR` (3-tuple, hence alpha 255). -/
def pupil_op (neon : RGB) (size : Nat) : DrawOp :=
  .ellipse (center_x size - eye_offset_x size - pupil_radius size)
    (eye_y size - pupil_radius size)
    (center_x size - eye_offset_x size + pupil_radius size)
    (eye_y size + pupil_radius size)
    (solidFill neon)

/-- Lines 89-93: the highlight ellipse with box
`[cx - eye_offset_x - int(2*s), eye_y - int(2*s),
  cx - eye_offset_x - max(1, int(0.5*s)), eye_y - max(1, int(0.5*s))]`
filled `(200, 255, 230)` (3-tuple, hence alpha 255). -/
def highlight_op (size : Nat) : DrawOp :=
  .ellipse (center_x size - eye_offset_x size - (intMulS 4 size : Nat))
    (eye_y size - (intMulS 4 size : Nat))
    (center_x size - eye_offset_x size - (min1 1 size : Nat))
    (eye_y size - (min1 1 size : Nat))
    (solidFill (200, 255, 230))

/-- Lines 25-93: the drawing operations of `create_ghost_mask` in program
order, parameterized by the module color constants the function reads. -/
def ghost_ops (bg ghost neon : RGB) (size : Nat) : List DrawOp :=
  [body_op ghost size, head_op ghost size, eye_socket_op bg size]
    ++ (List.range 3).map (glow_ring neon size)
    ++ [pupil_op neon size, highlight_op size]

/-- Lines 13-95, parameterized by the module color constants: a fresh
`size`×`size` RGBA canvas with background `bg + (255,)`; if `size < 8` it is
returned before any drawing, otherwise all shapes are drawn onto it. -/
def create_ghost_mask_in (bg ghost neon : RGB) (size : Nat) : Img :=
  if size < 8 then
    { width := size, height := size, mode := "RGBA",
      background := withAlpha bg 255, ops := [] }
  else
    { width := size, height := size, mode := "RGBA",
      background := withAlpha bg 255, ops := ghost_ops bg ghost neon size }

/-- `create_ghost_mask(size)` at the module's constant colors. -/
def create_ghost_mask (size : Nat) : Img :=
  create_ghost_mask_in BG_COLOR GHOST_COLOR NEON_COLOR size

/-! ## Export driver -/

/-- The resampling filter passed to `Image.resize`. -/
inductive Resample where
  | LANCZOS
deriving DecidableEq

/-- Model of the library's `Image.resize`: when the requested size equals the
current size the image is returned unchanged (the library short-circuits
`if self.size == size: return self.copy()` before any resampling); the
resampling path for a genuinely different size is outside this model (no
call in this program reaches it, which `create_favicon_ico` relies on) and
is represented by a bare canvas of the new size. -/
def Img.resize (img : Img) (wh : Nat × Nat) (_f : Resample) : Img :=
  if wh.1 = img.width ∧ wh.2 = img.height then img
  else
    { width := wh.1, height := wh.2, mode := img.mode,
      background := img.background, ops := [] }

/-- The content of a written file: a multi-frame ICO container or a PNG. -/
inductive FileContent where
  | ico (frames : List Img)
  | png (img : Img)
deriving DecidableEq

/-- The frames stored in a file: the frame list of an ICO, the single image
of a PNG. -/
def FileContent.frames : FileContent → List Img
  | .ico fs => fs
  | .png i => [i]

/-- One output file: its path and its content. -/
structure OutputFile where
  path : String
  content : FileContent
deriving DecidableEq

/-- Line 97: the default `sizes` argument of `create_favicon_ico`. -/
def icoSizes : List Nat := [16, 32, 48, 64, 128, 256]

/-- Lines 97-108: `create_favicon_ico(sizes)` renders each size, resizes it
to `(size, size)` with `Image.LANCZOS`, and bundles the frames (first image
plus `append_images`) into `favicon.ico`. -/
def create_favicon_ico (sizes : List Nat) : OutputFile :=
  { path := "/root/.openclaw/workspace/ghostshift/public/favicon.ico",
    content := .ico (sizes.map fun size =>
      (create_ghost_mask size).resize (size, size) .LANCZOS) }

/-- Lines 110-116: `create_png(size, filename)` renders one canvas and
saves it as a PNG under the public asset directory. -/
def create_png (size : Nat) (filename : String) : OutputFile :=
  { path := "/root/.openclaw/workspace/ghostshift/public/" ++ filename,
    content := .png (create_ghost_mask size) }

/-- Lines 118-127: the files written by the `__main__` block, in order. -/
def main_outputs : List OutputFile :=
  [create_favicon_ico icoSizes,
   create_png 16 "favicon-16x16.png",
   create_png 32 "favicon-32x32.png",
   create_png 180 "apple-touch-icon.png"]

/-! ## Observable state, for the purity of the renderer

`create_ghost_mask` executes: one `Image.new` (allocating a fresh local
canvas), one `ImageDraw.Draw` (a handle onto that local canvas), a sequence
of draw calls mutating only that local canvas, and a `return`.  No statement
writes a file or assigns a module-level name, so its state-threaded
embedding returns the ambient state unchanged; the module color constants it
reads are part of that state. -/

/-- The observable interpreter state: the files written so far and the
module-level color constants. -/
structure World where
  files : List OutputFile
  bg_color : RGB
  ghost_color : RGB
  neon_color : RGB
  neon_glow : RGBA

/-- The module state after lines 8-11, before anything runs. -/
def initWorld : World :=
  { files := [], bg_color := BG_COLOR, ghost_color := GHOST_COLOR,
    neon_color := NEON_COLOR, neon_glow := NEON_GLOW }

/-- `create_ghost_mask(size)` as a state transformer: it reads the color
constants from the module state and leaves the state untouched. -/
def runGhostMask (size : Nat) (w : World) : World × Img :=
  (w, create_ghost_mask_in w.bg_color w.ghost_color w.neon_color size)

/-! ## Measurements of drawing operations -/

/-- Fold of the minimum of `f` over `p :: l`. -/
def foldMin (f : ℤ × ℤ → ℤ) (p : ℤ × ℤ) (l : List (ℤ × ℤ)) : ℤ :=
  l.foldl (fun a q => min a (f q)) (f p)

/-- Fold of the maximum of `f` over `p :: l`. -/
def foldMax (f : ℤ × ℤ → ℤ) (p : ℤ × ℤ) (l : List (ℤ × ℤ)) : ℤ :=
  l.foldl (fun a q => max a (f q)) (f p)

/-- The smaller of an operation's horizontal and vertical extents: for an
ellipse the box spans `x1 - x0` and `y1 - y0`, for a polygon the spans of
its vertices' bounding box (0 for an empty vertex list). -/
def DrawOp.minExtent : DrawOp → ℤ
  | .ellipse x0 y0 x1 y1 _ => min (x1 - x0) (y1 - y0)
  | .polygon [] _ => 0
  | .polygon (p :: l) _ =>
    min (foldMax Prod.fst p l - foldMin Prod.fst p l)
      (foldMax Prod.snd p l - foldMin Prod.snd p l)

/-- Whether an ellipse's bounding box is well-ordered (`x0 ≤ x1` and
`y0 ≤ y1`); vacuously true for polygons. -/
def DrawOp.boxOrdered : DrawOp → Bool
  | .ellipse x0 y0 x1 y1 _ => decide (x0 ≤ x1 ∧ y0 ≤ y1)
  | .polygon _ _ => true

/-- Twice the x-coordinate of an ellipse's center (`x0 + x1`; 0 for a
polygon). -/
def DrawOp.centerX2 : DrawOp → ℤ
  | .ellipse x0 _ x1 _ _ => x0 + x1
  | .polygon _ _ => 0

/-- Twice the y-coordinate of an ellipse's center (`y0 + y1`; 0 for a
polygon). -/
def DrawOp.centerY2 : DrawOp → ℤ
  | .ellipse _ y0 _ y1 _ => y0 + y1
  | .polygon _ _ => 0

/-! ## Helper lemmas -/

/-- `intMulS c2 size` is the floor of the exact product `(c2/2) * s`: the
integer arithmetic of the embedding computes exactly `int(c * s)`. -/
theorem intMulS_eq_floor (c2 size : Nat) :
    (intMulS c2 size : ℤ) = ⌊(c2 : ℚ) / 2 * s size⌋ := by
  have hmax : s size = ((max (2 * size) 64 : ℕ) : ℚ) / 128 := by
    unfold s
    rw [Nat.cast_max, ← max_div_div_right (by norm_num : (0 : ℚ) ≤ 128)]
    congr 1
    · push_cast
      ring
    · norm_num
  have hprod : (c2 : ℚ) / 2 * (((max (2 * size) 64 : ℕ) : ℚ) / 128)
      = ((c2 * max (2 * size) 64 : ℕ) : ℚ) / ((256 : ℕ) : ℚ) := by
    push_cast
    ring
  rw [hmax, hprod, Rat.floor_natCast_div_natCast]
  rfl

/-- Folding `min` only decreases the accumulator. -/
theorem foldl_min_le (f : ℤ × ℤ → ℤ) (l : List (ℤ × ℤ)) (a : ℤ) :
    l.foldl (fun x q => min x (f q)) a ≤ a := by
  induction l generalizing a with
  | nil => exact le_refl a
  | cons q t ih => exact le_trans (ih (min a (f q))) (min_le_left _ _)

/-- Folding `max` only increases the accumulator. -/
theorem le_foldl_max (f : ℤ × ℤ → ℤ) (l : List (ℤ × ℤ)) (a : ℤ) :
    a ≤ l.foldl (fun x q => max x (f q)) a := by
  induction l generalizing a with
  | nil => exact le_refl a
  | cons q t ih => exact le_trans (le_max_left _ _) (ih (max a (f q)))

/-- A polygon's bounding-box extents are never negative. -/
theorem polygon_minExtent_nonneg (pts : List (ℤ × ℤ)) (c : RGBA) :
    0 ≤ (DrawOp.polygon pts c).minExtent := by
  cases pts with
  | nil => simp [DrawOp.minExtent]
  | cons p l =>
    have hx : foldMin Prod.fst p l ≤ foldMax Prod.fst p l :=
      le_trans (foldl_min_le _ _ _) (le_foldl_max _ _ _)
    have hy : foldMin Prod.snd p l ≤ foldMax Prod.snd p l :=
      le_trans (foldl_min_le _ _ _) (le_foldl_max _ _ _)
    exact le_min (by omega) (by omega)

/-- Lower bound for `intMulS` from the `64`-branch of the inner `max`. -/
theorem le_intMulS {m c2 : Nat} (size : Nat) (h : 256 * m ≤ c2 * 64) :
    m ≤ intMulS c2 size := by
  have h2 : c2 * 64 ≤ c2 * max (2 * size) 64 :=
    Nat.mul_le_mul_left _ (le_max_right _ _)
  exact (Nat.le_div_iff_mul_le (by norm_num)).2 (by omega)

/-- `intMulS` is monotone in the coefficient. -/
theorem intMulS_mono (size : Nat) {c2 c2' : Nat} (h : c2 ≤ c2') :
    intMulS c2 size ≤ intMulS c2' size :=
  Nat.div_le_div_right (Nat.mul_le_mul_right _ h)

/-- `glow_radius` is at least 4 (since `9 * s ≥ 4.5`). -/
theorem four_le_glow_radius (size : Nat) : 4 ≤ glow_radius size :=
  le_trans (le_intMulS size (by norm_num)) (le_max_right 2 _)

/-- The unclamped highlight offset `int(2 * s)` is at least 1. -/
theorem one_le_intMulS4 (size : Nat) : 1 ≤ intMulS 4 size :=
  le_intMulS size (by norm_num)

/-- The highlight box is well-ordered: `max(1, int(0.5*s)) ≤ int(2*s)`. -/
theorem min1_le_intMulS4 (size : Nat) : min1 1 size ≤ intMulS 4 size :=
  max_le (one_le_intMulS4 size) (intMulS_mono size (by norm_num))

/-- For `size ≥ 8`, the renderer takes the drawing branch; the loop of
`List.range 3` unrolled. -/
theorem create_ghost_mask_ops (size : Nat) (h : 8 ≤ size) :
    (create_ghost_mask size).ops =
      [body_op GHOST_COLOR size, head_op GHOST_COLOR size, eye_socket_op BG_COLOR size,
       glow_ring NEON_COLOR size 0, glow_ring NEON_COLOR size 1, glow_ring NEON_COLOR size 2,
       pupil_op NEON_COLOR size, highlight_op size] := by
  unfold create_ghost_mask create_ghost_mask_in
  rw [if_neg (by omega)]
  rfl

/-! ## Claims -/

/-- C1: for every integer `size ≥ 8`, `create_ghost_mask(size)` returns a
canvas of exactly `size × size` pixels in an RGBA pixel format. -/
theorem c1_canvas_dimensions_and_mode (size : Nat) (h : 8 ≤ size) :
    (create_ghost_mask size).width = size ∧ (create_ghost_mask size).height = size ∧
    (create_ghost_mask size).mode = "RGBA" := by
  unfold create_ghost_mask create_ghost_mask_in
  rw [if_neg (by omega)]
  exact ⟨rfl, rfl, rfl⟩

/-- Witness for C1 at `size = 64`. -/
theorem c1_canvas_dimensions_and_mode_witness :
    8 ≤ 64 ∧ ((create_ghost_mask 64).width = 64 ∧ (create_ghost_mask 64).height = 64 ∧
      (create_ghost_mask 64).mode = "RGBA") :=
  ⟨by decide, c1_canvas_dimensions_and_mode 64 (by decide)⟩

/-- C2: for every positive `size < 8`, the canvas carries no drawn shapes and
every pixel is the background color with full alpha. -/
theorem c2_small_size_uniform_background (size : Nat) (_h0 : 0 < size) (h : size < 8) :
    (create_ghost_mask size).ops = [] ∧
    ∀ x y : ℤ, getPixel (create_ghost_mask size) x y = withAlpha BG_COLOR 255 := by
  unfold create_ghost_mask create_ghost_mask_in
  rw [if_pos h]
  exact ⟨rfl, fun x y => rfl⟩

/-- Witness for C2 at `size = 4`. -/
theorem c2_small_size_uniform_background_witness :
    0 < 4 ∧ 4 < 8 ∧ ((create_ghost_mask 4).ops = [] ∧
      ∀ x y : ℤ, getPixel (create_ghost_mask 4) x y = withAlpha BG_COLOR 255) :=
  ⟨by decide, by decide, c2_small_size_uniform_background 4 (by decide) (by decide)⟩

/-- C5: the scale factor is `max(size/64, 0.5)`, monotone non-decreasing in
`size`, and never below `0.5`. -/
theorem c5_scale_factor (a b : Nat) (hab : a ≤ b) :
    s a = max ((a : ℚ) / 64) (1 / 2) ∧ s a ≤ s b ∧ 1 / 2 ≤ s a :=
  ⟨rfl,
   max_le_max ((div_le_div_iff_of_pos_right (by norm_num)).2 (by exact_mod_cast hab)) le_rfl,
   le_max_right _ _⟩

/-- Witness for C5 at `a = 16`, `b = 64`. -/
theorem c5_scale_factor_witness :
    16 ≤ 64 ∧ (s 16 = max ((16 : ℚ) / 64) (1 / 2) ∧ s 16 ≤ s 64 ∧ 1 / 2 ≤ s 16) :=
  ⟨by decide, c5_scale_factor 16 64 (by decide)⟩

/-- C4: for every `size ≥ 8` the three glow rings are drawn with alphas
60, 45, 30 in order (positions 3-5 of the full alpha trace), each computed as
`60 - i*15` over exactly the 3 loop iterations. -/
theorem c4_glow_alphas (size : Nat) (h : 8 ≤ size) :
    ((create_ghost_mask size).ops.map DrawOp.alpha) = [255, 255, 255, 60, 45, 30, 255, 255] ∧
    ∀ i, i < 3 → (glow_ring NEON_COLOR size i).alpha = 60 - i * 15 := by
  refine ⟨?_, fun i _ => rfl⟩
  rw [create_ghost_mask_ops size h]
  rfl

/-- Witness for C4 at `size = 64`. -/
theorem c4_glow_alphas_witness :
    8 ≤ 64 ∧ (((create_ghost_mask 64).ops.map DrawOp.alpha) = [255, 255, 255, 60, 45, 30, 255, 255] ∧
      ∀ i, i < 3 → (glow_ring NEON_COLOR 64 i).alpha = 60 - i * 15) :=
  ⟨by decide, c4_glow_alphas 64 (by decide)⟩

/-- C8: the renderer is a pure, deterministic function of `size`: it leaves
the observable state (written files and module color constants) untouched,
and two invocations under the same constants produce pixel-identical
canvases. -/
theorem c8_renderer_pure (size : Nat) (w w' : World)
    (hbg : w'.bg_color = w.bg_color) (hg : w'.ghost_color = w.ghost_color)
    (hn : w'.neon_color = w.neon_color) :
    (runGhostMask size w).1 = w ∧
    (runGhostMask size w).2 = (runGhostMask size w').2 ∧
    ∀ x y : ℤ, getPixel (runGhostMask size w).2 x y = getPixel (runGhostMask size w').2 x y := by
  refine ⟨rfl, ?_, ?_⟩ <;> simp [runGhostMask, hbg, hg, hn]

/-- Witness for C8 at `size = 64` in the initial module state. -/
theorem c8_renderer_pure_witness :
    initWorld.bg_color = initWorld.bg_color ∧ initWorld.ghost_color = initWorld.ghost_color ∧
    initWorld.neon_color = initWorld.neon_color ∧
    ((runGhostMask 64 initWorld).1 = initWorld ∧
      (runGhostMask 64 initWorld).2 = (runGhostMask 64 initWorld).2 ∧
      ∀ x y : ℤ, getPixel (runGhostMask 64 initWorld).2 x y
        = getPixel (runGhostMask 64 initWorld).2 x y) :=
  ⟨rfl, rfl, rfl, c8_renderer_pure 64 initWorld initWorld rfl rfl rfl⟩

/-- C9: each canvas already has the requested dimensions, so the `resize`
before bundling is the identity and every ICO frame equals the directly
rendered canvas. -/
theorem c9_resize_identity (size : Nat) (flt : Resample) :
    (create_ghost_mask size).resize (size, size) flt = create_ghost_mask size ∧
    (create_favicon_ico icoSizes).content.frames = icoSizes.map create_ghost_mask := by
  constructor
  · have hw : (create_ghost_mask size).width = size := by
      unfold create_ghost_mask create_ghost_mask_in
      split <;> rfl
    have hh : (create_ghost_mask size).height = size := by
      unfold create_ghost_mask create_ghost_mask_in
      split <;> rfl
    unfold Img.resize
    rw [if_pos ⟨hw.symm, hh.symm⟩]
  · rfl

/-- C3, counterexample: at `size = 8` (which satisfies `size ≥ 8`) the
innermost glow ring is drawn with a zero-extent bounding box
(`[0, 1, 0, 1]`), so not every drawn shape has extent at least 1 pixel. -/
theorem c3_zero_extent_counterexample :
    (8 ≤ 8 ∧ glow_ring NEON_COLOR 8 2 ∈ (create_ghost_mask 8).ops ∧
      (glow_ring NEON_COLOR 8 2).minExtent = 0) ∧
    ¬ ∀ op ∈ (create_ghost_mask 8).ops, 1 ≤ op.minExtent := by decide

/-- C3, amended: for every `size ≥ 8` all clamped radii/offsets are at least
1 pixel (the `max(2, ...)` ones at least 2, `glow_radius` in fact at least 4)
and the unclamped highlight offset `int(2*s)` is at least 1; every drawn
shape has nonnegative (never inverted) extent, though not necessarily
positive: the innermost glow ring and the highlight box can degenerate to
zero extent at small sizes. -/
theorem c3_amended_min_geometry (size : Nat) (h : 8 ≤ size) :
    (∀ c2, 1 ≤ min1 c2 size) ∧ 2 ≤ head_width size ∧ 2 ≤ head_height size ∧
    1 ≤ eye_offset_x size ∧ 1 ≤ eye_radius size ∧ 4 ≤ glow_radius size ∧
    1 ≤ pupil_radius size ∧ 1 ≤ highlight_radius size ∧ 1 ≤ intMulS 4 size ∧
    ∀ op ∈ (create_ghost_mask size).ops, 0 ≤ op.minExtent := by
  refine ⟨fun c2 => le_max_left _ _, le_max_left _ _, le_max_left _ _,
    le_max_left _ _, le_max_left _ _, four_le_glow_radius size,
    le_max_left _ _, le_max_left _ _, one_le_intMulS4 size, ?_⟩
  rw [create_ghost_mask_ops size h]
  have hgr := four_le_glow_radius size
  have hml := min1_le_intMulS4 size
  intro op hop
  simp only [List.mem_cons, List.not_mem_nil, or_false] at hop
  rcases hop with rfl | rfl | rfl | rfl | rfl | rfl | rfl | rfl
  · exact polygon_minExtent_nonneg _ _
  · simp only [head_op, DrawOp.minExtent]
    refine le_min ?_ ?_ <;> omega
  · simp only [eye_socket_op, DrawOp.minExtent]
    refine le_min ?_ ?_ <;> omega
  · simp only [glow_ring, DrawOp.minExtent]
    refine le_min ?_ ?_ <;> omega
  · simp only [glow_ring, DrawOp.minExtent]
    refine le_min ?_ ?_ <;> omega
  · simp only [glow_ring, DrawOp.minExtent]
    refine le_min ?_ ?_ <;> omega
  · simp only [pupil_op, DrawOp.minExtent]
    refine le_min ?_ ?_ <;> omega
  · simp only [highlight_op, DrawOp.minExtent]
    refine le_min ?_ ?_ <;> omega

/-- Witness for the amended C3 at `size = 64`. -/
theorem c3_amended_min_geometry_witness :
    8 ≤ 64 ∧ ((∀ c2, 1 ≤ min1 c2 64) ∧ 2 ≤ head_width 64 ∧ 2 ≤ head_height 64 ∧
      1 ≤ eye_offset_x 64 ∧ 1 ≤ eye_radius 64 ∧ 4 ≤ glow_radius 64 ∧
      1 ≤ pupil_radius 64 ∧ 1 ≤ highlight_radius 64 ∧ 1 ≤ intMulS 4 64 ∧
      ∀ op ∈ (create_ghost_mask 64).ops, 0 ≤ op.minExtent) :=
  ⟨by decide, c3_amended_min_geometry 64 (by decide)⟩

/-- C7: for every `size ≥ 8` the full drawing order is body, head, then the
eye back-to-front: a socket filled with the opaque background color, three
progressively smaller semi-transparent glow ellipses, a solid bright pupil,
and a near-white highlight whose center lies strictly up and to the left of
the pupil's center. -/
theorem c7_eye_layer_structure (size : Nat) (h : 8 ≤ size) :
    (create_ghost_mask size).ops =
      [body_op GHOST_COLOR size, head_op GHOST_COLOR size, eye_socket_op BG_COLOR size,
       glow_ring NEON_COLOR size 0, glow_ring NEON_COLOR size 1, glow_ring NEON_COLOR size 2,
       pupil_op NEON_COLOR size, highlight_op size] ∧
    (eye_socket_op BG_COLOR size).fill = withAlpha BG_COLOR 255 ∧
    (∀ i, i < 3 → (glow_ring NEON_COLOR size i).alpha = 60 - i * 15 ∧
      (glow_ring NEON_COLOR size i).alpha < 255) ∧
    (∀ i, i + 1 < 3 →
      (glow_ring NEON_COLOR size (i + 1)).minExtent
        < (glow_ring NEON_COLOR size i).minExtent) ∧
    (pupil_op NEON_COLOR size).fill = withAlpha NEON_COLOR 255 ∧
    (highlight_op size).fill = withAlpha (200, 255, 230) 255 ∧
    (highlight_op size).centerX2 < (pupil_op NEON_COLOR size).centerX2 ∧
    (highlight_op size).centerY2 < (pupil_op NEON_COLOR size).centerY2 := by
  have hgr := four_le_glow_radius size
  have h4 := one_le_intMulS4 size
  have h1 : 1 ≤ min1 1 size := le_max_left _ _
  refine ⟨create_ghost_mask_ops size h, rfl, ?_, ?_, rfl, rfl, ?_, ?_⟩
  · intro i hi
    have hc : i = 0 ∨ i = 1 ∨ i = 2 := by omega
    rcases hc with rfl | rfl | rfl <;>
      exact ⟨rfl, by norm_num [glow_ring, DrawOp.alpha, DrawOp.fill, withAlpha]⟩
  · intro i hi
    have hc : i = 0 ∨ i = 1 := by omega
    rcases hc with rfl | rfl <;>
      · simp only [glow_ring, DrawOp.minExtent]
        refine min_lt_min ?_ ?_ <;> omega
  · simp only [highlight_op, pupil_op, DrawOp.centerX2]
    omega
  · simp only [highlight_op, pupil_op, DrawOp.centerY2]
    omega

/-- Witness for C7 at `size = 64`. -/
theorem c7_eye_layer_structure_witness :
    8 ≤ 64 ∧ ((create_ghost_mask 64).ops =
      [body_op GHOST_COLOR 64, head_op GHOST_COLOR 64, eye_socket_op BG_COLOR 64,
       glow_ring NEON_COLOR 64 0, glow_ring NEON_COLOR 64 1, glow_ring NEON_COLOR 64 2,
       pupil_op NEON_COLOR 64, highlight_op 64] ∧
      (eye_socket_op BG_COLOR 64).fill = withAlpha BG_COLOR 255 ∧
      (∀ i, i < 3 → (glow_ring NEON_COLOR 64 i).alpha = 60 - i * 15 ∧
        (glow_ring NEON_COLOR 64 i).alpha < 255) ∧
      (∀ i, i + 1 < 3 →
        (glow_ring NEON_COLOR 64 (i + 1)).minExtent
          < (glow_ring NEON_COLOR 64 i).minExtent) ∧
      (pupil_op NEON_COLOR 64).fill = withAlpha NEON_COLOR 255 ∧
      (highlight_op 64).fill = withAlpha (200, 255, 230) 255 ∧
      (highlight_op 64).centerX2 < (pupil_op NEON_COLOR 64).centerX2 ∧
      (highlight_op 64).centerY2 < (pupil_op NEON_COLOR 64).centerY2) :=
  ⟨by decide, c7_eye_layer_structure 64 (by decide)⟩

/-- C10: for every `size ≥ 8`, every ellipse bounding box passed to a drawing
call is well-ordered (`x0 ≤ x1` and `y0 ≤ y1`). -/
theorem c10_ellipse_boxes_ordered (size : Nat) (h : 8 ≤ size) :
    ∀ op ∈ (create_ghost_mask size).ops, op.boxOrdered = true := by
  rw [create_ghost_mask_ops size h]
  have hgr := four_le_glow_radius size
  have hml := min1_le_intMulS4 size
  intro op hop
  simp only [List.mem_cons, List.not_mem_nil, or_false] at hop
  rcases hop with rfl | rfl | rfl | rfl | rfl | rfl | rfl | rfl
  · rfl
  · simp only [head_op, DrawOp.boxOrdered, decide_eq_true_eq]
    refine ⟨?_, ?_⟩ <;> omega
  · simp only [eye_socket_op, DrawOp.boxOrdered, decide_eq_true_eq]
    refine ⟨?_, ?_⟩ <;> omega
  · simp only [glow_ring, DrawOp.boxOrdered, decide_eq_true_eq]
    refine ⟨?_, ?_⟩ <;> omega
  · simp only [glow_ring, DrawOp.boxOrdered, decide_eq_true_eq]
    refine ⟨?_, ?_⟩ <;> omega
  · simp only [glow_ring, DrawOp.boxOrdered, decide_eq_true_eq]
    refine ⟨?_, ?_⟩ <;> omega
  · simp only [pupil_op, DrawOp.boxOrdered, decide_eq_true_eq]
    refine ⟨?_, ?_⟩ <;> omega
  · simp only [highlight_op, DrawOp.boxOrdered, decide_eq_true_eq]
    refine ⟨?_, ?_⟩ <;> omega

/-- Witness for C10 at `size = 64`. -/
theorem c10_ellipse_boxes_ordered_witness :
    8 ≤ 64 ∧ ∀ op ∈ (create_ghost_mask 64).ops, op.boxOrdered = true :=
  ⟨by decide, c10_ellipse_boxes_ordered 64 (by decide)⟩

/-- C6: the export step writes exactly 4 distinct files at the expected
paths; the three PNGs have sides 16, 32 and 180; `favicon.ico` holds exactly
6 frames, each the canvas for 16, 32, 48, 64, 128, 256 in order, resized to
its nominal size with the LANCZOS filter, at those exact dimensions. -/
theorem c6_export_artifacts :
    main_outputs.length = 4 ∧
    (main_outputs.map OutputFile.path).Nodup ∧
    main_outputs.map OutputFile.path =
      ["/root/.openclaw/workspace/ghostshift/public/favicon.ico",
       "/root/.openclaw/workspace/ghostshift/public/favicon-16x16.png",
       "/root/.openclaw/workspace/ghostshift/public/favicon-32x32.png",
       "/root/.openclaw/workspace/ghostshift/public/apple-touch-icon.png"] ∧
    ((create_png 16 "favicon-16x16.png").content.frames.map fun i => (i.width, i.height))
      = [(16, 16)] ∧
    ((create_png 32 "favicon-32x32.png").content.frames.map fun i => (i.width, i.height))
      = [(32, 32)] ∧
    ((create_png 180 "apple-touch-icon.png").content.frames.map fun i => (i.width, i.height))
      = [(180, 180)] ∧
    (create_favicon_ico icoSizes).content.frames.length = 6 ∧
    (create_favicon_ico icoSizes).content.frames
      = icoSizes.map (fun size => (create_ghost_mask size).resize (size, size) .LANCZOS) ∧
    ((create_favicon_ico icoSizes).content.frames.map fun i => (i.width, i.height))
      = [(16, 16), (32, 32), (48, 48), (64, 64), (128, 128), (256, 256)] := by
  refine ⟨rfl, by decide, rfl, rfl, rfl, rfl, rfl, rfl, by decide⟩
